import Mathlib

/-!
Verification development for `generate_chip.py` of librepcb-parts-generator.

The file shallowly embeds the identifier cache (`uuid`) and the geometric
layout (`add_footprint_variant`) of the generator.  Python floats are
modelled as exact rationals (`ℚ`); the text formatting helper `ff`
(`format_float` from the missing `common` module) is presentation only, so
coordinates are carried as the exact rational magnitudes that the source
computes and then formats.  Python's `uuid4()` is modelled as an injective
supply of fresh identifier strings, reflecting its collision-freeness
guarantee; the supply is a parameter `gen : Nat → String` paired with a
counter in the state.
-/

/-! ## Identifier cache (`uuid` in `generate_chip.py`) -/

/-- Normalization of an identifier key, from
`'{}-{}-{}'.format(category, full_name, identifier).lower().replace(' ', '~')`.
Both `str.lower` and the single-character `str.replace` act character-wise,
so they are embedded as one character-wise map over the concatenation. -/
def normalize_key (category full_name identifier : String) : String :=
  String.mk ((category ++ "-" ++ full_name ++ "-" ++ identifier).data.map
    (fun ch => let lc := ch.toLower; if lc = ' ' then '~' else lc))

/-- Lookup in the uuid cache (a Python `dict` keyed by strings, embedded as
an association list in insertion order). -/
def cache_lookup : List (String × String) → String → Option String
  | [], _ => none
  | p :: rest, key => if p.1 = key then some p.2 else cache_lookup rest key

/-- State of the identifier cache: the key→identifier mapping plus the
counter driving the fresh-identifier supply (the model of `uuid4()`). -/
structure UuidState where
  cache : List (String × String)
  counter : Nat
deriving DecidableEq

/-- The `uuid` function of `generate_chip.py`: normalize the key, return the
cached identifier if present, otherwise draw a fresh identifier from the
supply `gen`, insert it, and return it. -/
def uuid (gen : Nat → String) (st : UuidState)
    (category full_name identifier : String) : String × UuidState :=
  let key := normalize_key category full_name identifier
  match cache_lookup st.cache key with
  | some v => (v, st)
  | none => (gen st.counter, ⟨st.cache ++ [(key, gen st.counter)], st.counter + 1⟩)

/-- A cache state is fresh-consistent when every stored identifier was drawn
from the supply at an index below the current counter.  Holds for the empty
state and is preserved by `uuid`. -/
def CacheFresh (gen : Nat → String) (st : UuidState) : Prop :=
  ∀ p ∈ st.cache, ∃ m, m < st.counter ∧ p.2 = gen m

/-- The resolution of the two package pad identifiers in `generate_pkg`:
`uuid_pads = [_uuid('pad-1'), _uuid('pad-2')]` with `_uuid(i) =
uuid('pkg', full_name, i)`, resolved in order through the cache state. -/
def generate_pkg_pad_uuids (gen : Nat → String) (st : UuidState)
    (full_name : String) : List String × UuidState :=
  let r1 := uuid gen st "pkg" full_name "pad-1"
  let r2 := uuid gen r1.2 "pkg" full_name "pad-2"
  ([r1.1, r2.1], r2.2)

/-! ## Part configuration (`ChipConfig`) -/

/-- `ChipConfig`: one parametric chip size.  Dimensions in millimeters,
embedded as exact rationals. -/
structure ChipConfig where
  size_imperial : String
  length : ℚ
  width : ℚ
  height : ℚ
  pad_length : ℚ
  pad_width : ℚ
  gap : ℚ
deriving DecidableEq

/-- Python `int()` on a real number: truncation toward zero. -/
def pyInt (q : ℚ) : ℤ := if 0 ≤ q then ⌊q⌋ else ⌈q⌉

/-- Python `str.rjust(n, c)`: left-pad with `c` up to width `n`. -/
def rjust (s : String) (n : Nat) (c : Char) : String :=
  if n ≤ s.length then s else String.mk (List.replicate (n - s.length) c) ++ s

/-- `ChipConfig.size_metric`:
`str(int(length * 10)).rjust(2, '0') + str(int(width * 10)).rjust(2, '0')`. -/
def ChipConfig.size_metric (c : ChipConfig) : String :=
  rjust (toString (pyInt (c.length * 10))) 2 '0' ++
    rjust (toString (pyInt (c.width * 10))) 2 '0'

/-- Zero-padding to two digits, as the spec phrases it. -/
def zero_pad_two (s : String) : String :=
  if s.length < 2 then String.mk (List.replicate (2 - s.length) '0') ++ s else s

/-- The metric size code as the spec describes it: length and width each
truncated to tenths of a millimeter, zero-padded to two digits each, and
concatenated. -/
def size_metric_spec (c : ChipConfig) : String :=
  zero_pad_two (toString ⌊c.length * 10⌋) ++ zero_pad_two (toString ⌊c.width * 10⌋)

/-! ## Geometry model

Module-level constants of `generate_chip.py`. -/

def line_width : ℚ := 0.25

def line_width_thin : ℚ := 0.15

def line_width_thinner : ℚ := 0.1

def label_offset : ℚ := 1.1

def label_offset_thin : ℚ := 0.8

def silkscreen_clearance : ℚ := 0.15

/-- Drawing layers appearing in the emitted footprints. -/
inductive Layer where
  | top_documentation
  | top_placement
  | top_names
  | top_values
deriving DecidableEq

/-- One `(vertex (position … …) (angle …))` line.  The source writes some
coordinates through a template with a literal leading minus sign
(`'(position -{} {})'.format(dx, dy)`); `xNeg`/`yNeg` record that literal
sign and `x`/`y` the formatted magnitude expression, so a negative computed
magnitude is represented faithfully rather than folded into the sign. -/
structure SVertex where
  xNeg : Bool
  x : ℚ
  yNeg : Bool
  y : ℚ
  angle : ℚ
deriving DecidableEq

/-- One emitted footprint element: a pad block, a polygon block, or a
stroke-text block, with the fields the source writes for each. -/
inductive FpElem where
  | pad (uuidStr : String) (side shape : String) (x y sx sy : ℚ)
  | polygon (uuidStr : String) (layer : Layer) (width : ℚ)
      (fill grab_area : Bool) (vertices : List SVertex)
  | stroke_text (uuidStr : String) (layer : Layer) (align : String)
      (yNeg : Bool) (y : ℚ) (value : String)
deriving DecidableEq

/-- One footprint variant: its identifier, name, and emitted elements in
source order (pads, outline, silkscreen, labels). -/
structure Footprint where
  uuidStr : String
  name : String
  elems : List FpElem
deriving DecidableEq

/-- Python list indexing as used in `uuid_pads[p - 1]`: a negative index
counts from the end. -/
def pyIdx (l : List String) (i : Int) : String :=
  if i < 0 then l.getD (i + l.length).toNat "" else l.getD i.toNat ""

/-- Silkscreen stroke width: `line_width` when `length >= 2.0`, else
`line_width_thin` (the source assigns `line_width_thin` in both the
`length >= 1.0` branch and the final `else` branch). -/
def silk_lw (config : ChipConfig) : ℚ :=
  if config.length ≥ 2 then line_width else line_width_thin

/-- Documentation-outline stroke width per the `if`/`elif`/`else` ladder. -/
def doc_lw (config : ChipConfig) : ℚ :=
  if config.length ≥ 2 then line_width
  else if config.length ≥ 1 then line_width_thin
  else line_width_thinner

/-- Body of the pad loop `for p in [0, 1]`: the pad identifier is
`uuid_pads[p - 1]` (Python negative indexing wraps), the sign is `-1` for
`p = 1` else `1`, and the x offset is `sign * (gap / 2 + pad_length / 2)`. -/
def mk_pad (uuid_pads : List String) (config : ChipConfig) (p : Nat) : FpElem :=
  let pad_uuid := pyIdx uuid_pads ((p : Int) - 1)
  let sign : ℚ := if p = 1 then -1 else 1
  FpElem.pad pad_uuid "top" "rect"
    (sign * (config.gap / 2 + config.pad_length / 2)) 0
    config.pad_length config.pad_width

/-- The `add_footprint_variant` closure of `generate_pkg`: emits two pads,
the documentation outline, the silkscreen segments (only when
`length > 1.0`), and the two text labels.  `r` is the captured `_uuid`
resolver (role string to identifier), `uuid_pads` the captured pad
identifier list. -/
def add_footprint_variant (r : String → String) (uuid_pads : List String)
    (config : ChipConfig) (key fp_name : String) : Footprint :=
  let uuid_footprint := r ("footprint-" ++ key)
  let uuid_text_name := r ("text-name-" ++ key)
  let uuid_text_value := r ("text-value-" ++ key)
  let uuid_silkscreen_top := r ("line-silkscreen-top-" ++ key)
  let uuid_silkscreen_bot := r ("line-silkscreen-bot-" ++ key)
  let uuid_outline := r ("polygon-outline-" ++ key)
  let pads := [0, 1].map (mk_pad uuid_pads config)
  let hl := config.width / 2
  let hw := config.length / 2
  let outline := FpElem.polygon uuid_outline Layer.top_documentation
    (doc_lw config) false true
    [⟨true, hw, false, hl, 0⟩, ⟨false, hw, false, hl, 0⟩,
     ⟨false, hw, true, hl, 0⟩, ⟨true, hw, true, hl, 0⟩,
     ⟨true, hw, false, hl, 0⟩]
  let silk :=
    if config.length > 1 then
      let dx := config.gap / 2 - silk_lw config / 2 - silkscreen_clearance
      let dy := config.width / 2 + silk_lw config / 2
      [FpElem.polygon uuid_silkscreen_top Layer.top_placement (silk_lw config)
         false false [⟨true, dx, false, dy, 0⟩, ⟨false, dx, false, dy, 0⟩],
       FpElem.polygon uuid_silkscreen_bot Layer.top_placement (silk_lw config)
         false false [⟨true, dx, true, dy, 0⟩, ⟨false, dx, true, dy, 0⟩]]
    else []
  let offset := if config.width < 2 then label_offset_thin else label_offset
  let dy := config.width / 2 + offset
  let t_name := FpElem.stroke_text uuid_text_name Layer.top_names
    "center bottom" false dy "{NAME}"
  let t_value := FpElem.stroke_text uuid_text_value Layer.top_values
    "center top" true dy "{VALUE}"
  { uuidStr := uuid_footprint, name := fp_name,
    elems := pads ++ [outline] ++ silk ++ [t_name, t_value] }

/-! ## Projections over emitted elements -/

def FpElem.isPad : FpElem → Bool
  | .pad _ _ _ _ _ _ _ => true
  | _ => false

def FpElem.isSilkscreen : FpElem → Bool
  | .polygon _ Layer.top_placement _ _ _ _ => true
  | _ => false

def FpElem.isOutline : FpElem → Bool
  | .polygon _ Layer.top_documentation _ _ _ _ => true
  | _ => false

def FpElem.padX : FpElem → ℚ
  | .pad _ _ _ x _ _ _ => x
  | _ => 0

/-- The signed half-length magnitude written into a silkscreen polygon: the
`x` magnitude of its first vertex (the template writes `-{dx}` then
`{dx}`). -/
def FpElem.silkHalfLength : FpElem → Option ℚ
  | .polygon _ Layer.top_placement _ _ _ vs =>
      some ((vs.headD ⟨true, 0, false, 0, 0⟩).x)
  | _ => none

def Footprint.padElems (fp : Footprint) : List FpElem :=
  fp.elems.filter FpElem.isPad

def Footprint.silkscreenElems (fp : Footprint) : List FpElem :=
  fp.elems.filter FpElem.isSilkscreen

def Footprint.outlineElems (fp : Footprint) : List FpElem :=
  fp.elems.filter FpElem.isOutline

def Footprint.silkHalfLengths (fp : Footprint) : List ℚ :=
  fp.elems.filterMap FpElem.silkHalfLength

/-- Erase the per-variant identifier of each element (the pad identifiers
are package-level and shared between variants, so they are kept). -/
def FpElem.eraseId : FpElem → FpElem
  | .pad u side shape x y sx sy => .pad u side shape x y sx sy
  | .polygon _ layer w f g vs => .polygon "" layer w f g vs
  | .stroke_text _ layer a yN y v => .stroke_text "" layer a yN y v

/-- The geometry of a footprint variant: its elements with per-variant
identifiers abstracted away (the footprint name and identifier live outside
`elems`). -/
def Footprint.geometry (fp : Footprint) : List FpElem :=
  fp.elems.map FpElem.eraseId

/-! ## Concrete configurations from the catalog (and one stress input) -/

/-- Catalog row `ChipConfig('01005', .4, .2, 0.15, .17, .18, 0.2)`. -/
def config01005 : ChipConfig := ⟨"01005", 0.4, 0.2, 0.15, 0.17, 0.18, 0.2⟩

/-- Catalog row `ChipConfig('0603', 1.6, .8, 0.55, .8, .8, 0.8)`. -/
def config0603 : ChipConfig := ⟨"0603", 1.6, 0.8, 0.55, 0.8, 0.8, 0.8⟩

/-- Catalog row `ChipConfig('1206', 3.2, 1.6, 0.60, 1.3, 1.5, 1.8)`. -/
def config1206 : ChipConfig := ⟨"1206", 3.2, 1.6, 0.60, 1.3, 1.5, 1.8⟩

/-- A configuration with `length > 1` whose computed silkscreen half-length
`gap/2 - silk_lw/2 - silkscreen_clearance = 0.15 - 0.075 - 0.15 = -0.075`
is negative. -/
def config_narrow_gap : ChipConfig := ⟨"narrow", 1.2, 0.5, 0.2, 0.3, 0.3, 0.3⟩

/-- A concrete injective fresh-identifier supply used to instantiate the
cache theorems. -/
def genW (n : Nat) : String := String.mk (List.replicate n 'u')

/-! ## Helper lemmas -/

theorem genW_injective : Function.Injective genW := by
  intro a b h
  have hlen := congrArg (fun s => s.data.length) h
  simpa [genW] using hlen

theorem cache_lookup_append_self (l : List (String × String)) (k v : String)
    (h : cache_lookup l k = none) : cache_lookup (l ++ [(k, v)]) k = some v := by
  induction l with
  | nil => simp [cache_lookup]
  | cons p t ih =>
    by_cases hp : p.1 = k
    · simp [cache_lookup, hp] at h
    · simp only [cache_lookup, List.cons_append, if_neg hp] at h ⊢
      exact ih h

theorem uuid_cache_has_key (gen : Nat → String) (st : UuidState)
    (c f i : String) :
    cache_lookup ((uuid gen st c f i).2).cache (normalize_key c f i) =
      some ((uuid gen st c f i).1) := by
  cases h : cache_lookup st.cache (normalize_key c f i) with
  | some v => simp [uuid, h]
  | none => simp [uuid, h, cache_lookup_append_self _ _ _ h]

/-! ## Claim theorems -/

/-- Claim C1: resolving the same identifier key twice within one cache
lifetime returns the same identifier both times and leaves the cache state
unchanged on the second call, and any two keys that are equal after
normalization (lowercasing, spaces replaced by the filler character `~`)
resolve to equal identifiers. -/
theorem uuid_resolve_idempotent (gen : Nat → String) (st : UuidState)
    (c f i c2 f2 i2 : String) :
    uuid gen (uuid gen st c f i).2 c f i = uuid gen st c f i ∧
    (normalize_key c f i = normalize_key c2 f2 i2 →
      uuid gen st c2 f2 i2 = uuid gen st c f i) := by
  constructor
  · cases h : cache_lookup st.cache (normalize_key c f i) with
    | some v => simp [uuid, h]
    | none => simp [uuid, h, cache_lookup_append_self _ _ _ h]
  · intro hk
    simp only [uuid, ← hk]

theorem uuid_resolve_idempotent_witness :
    uuid genW (uuid genW ⟨[], 0⟩ "pkg" "RESC1608X55 (0603)" "pad-1").2
        "pkg" "RESC1608X55 (0603)" "pad-1" =
      uuid genW ⟨[], 0⟩ "pkg" "RESC1608X55 (0603)" "pad-1" ∧
    uuid genW ⟨[], 0⟩ "PKG" "resc1608x55 (0603)" "PAD-1" =
      uuid genW ⟨[], 0⟩ "pkg" "RESC1608X55 (0603)" "pad-1" :=
  ⟨(uuid_resolve_idempotent genW ⟨[], 0⟩ "pkg" "RESC1608X55 (0603)" "pad-1"
      "PKG" "resc1608x55 (0603)" "PAD-1").1,
   (uuid_resolve_idempotent genW ⟨[], 0⟩ "pkg" "RESC1608X55 (0603)" "pad-1"
      "PKG" "resc1608x55 (0603)" "PAD-1").2 (by decide)⟩

/-- Claim C8: in a fresh (empty) cache, two keys whose normalized strings
differ resolve to distinct identifiers; and in any fresh-consistent cache
state, a key not yet present receives an identifier not previously present
among the cached identifiers.  `uuid4()` is modelled as the injective
supply `gen`. -/
theorem uuid_fresh_distinct (gen : Nat → String)
    (hinj : Function.Injective gen) :
    (∀ c1 f1 i1 c2 f2 i2 : String,
      normalize_key c1 f1 i1 ≠ normalize_key c2 f2 i2 →
      (uuid gen (uuid gen ⟨[], 0⟩ c1 f1 i1).2 c2 f2 i2).1 ≠
        (uuid gen ⟨[], 0⟩ c1 f1 i1).1) ∧
    (∀ (st : UuidState) (c f i : String), CacheFresh gen st →
      cache_lookup st.cache (normalize_key c f i) = none →
      (uuid gen st c f i).1 ∉ st.cache.map Prod.snd) := by
  constructor
  · intro c1 f1 i1 c2 f2 i2 hne
    simp only [uuid, cache_lookup]
    rw [if_neg hne]
    simp only [cache_lookup]
    intro h
    exact Nat.one_ne_zero (hinj h)
  · intro st c f i hfresh hnone hmem
    rw [show (uuid gen st c f i).1 = gen st.counter by simp [uuid, hnone]]
      at hmem
    obtain ⟨p, hp, hpv⟩ := List.mem_map.mp hmem
    obtain ⟨m, hm, hgm⟩ := hfresh p hp
    rw [hgm] at hpv
    exact absurd (hinj hpv) (by omega)

theorem uuid_fresh_distinct_witness :
    ((uuid genW (uuid genW ⟨[], 0⟩ "pkg" "A" "pad-1").2 "pkg" "A" "pad-2").1 ≠
      (uuid genW ⟨[], 0⟩ "pkg" "A" "pad-1").1) ∧
    (uuid genW ⟨[("pkg-a-pad-1", genW 0)], 1⟩ "pkg" "A" "pad-2").1 ∉
      ([("pkg-a-pad-1", genW 0)] : List (String × String)).map Prod.snd :=
  ⟨(uuid_fresh_distinct genW genW_injective).1 "pkg" "A" "pad-1"
      "pkg" "A" "pad-2" (by decide),
   (uuid_fresh_distinct genW genW_injective).2 ⟨[("pkg-a-pad-1", genW 0)], 1⟩
      "pkg" "A" "pad-2"
      (by
        intro p hp
        simp only [List.mem_singleton] at hp
        subst hp
        exact ⟨0, Nat.zero_lt_one, rfl⟩)
      (by decide)⟩

/-- Claim C2: every footprint variant contains exactly two pads, both
rectangular, each of size pad_length × pad_width, both at y = 0, at
x = +(gap/2 + pad_length/2) (first, carrying `uuid_pads[-1]`) and at
x = −(gap/2 + pad_length/2) (second, carrying `uuid_pads[0]`); for the 0603
configuration the pads sit at x = ±0.8. -/
theorem pads_two_mirrored (r : String → String) (up : List String)
    (c : ChipConfig) (key fp_name : String) :
    (add_footprint_variant r up c key fp_name).padElems =
      [FpElem.pad (pyIdx up (-1)) "top" "rect"
         (c.gap / 2 + c.pad_length / 2) 0 c.pad_length c.pad_width,
       FpElem.pad (pyIdx up 0) "top" "rect"
         (-(c.gap / 2 + c.pad_length / 2)) 0 c.pad_length c.pad_width] ∧
    (add_footprint_variant r up config0603 key fp_name).padElems.map
        FpElem.padX = [0.8, -0.8] := by
  have hpe : ∀ c' : ChipConfig,
      (add_footprint_variant r up c' key fp_name).padElems =
        [FpElem.pad (pyIdx up (-1)) "top" "rect"
           (c'.gap / 2 + c'.pad_length / 2) 0 c'.pad_length c'.pad_width,
         FpElem.pad (pyIdx up 0) "top" "rect"
           (-(c'.gap / 2 + c'.pad_length / 2)) 0 c'.pad_length
           c'.pad_width] := by
    intro c'
    by_cases h : c'.length > 1 <;>
      simp [add_footprint_variant, Footprint.padElems, mk_pad, FpElem.isPad,
        h, zero_sub, sub_self, one_mul, neg_one_mul]
  refine ⟨hpe c, ?_⟩
  rw [hpe config0603]
  simp only [List.map_cons, List.map_nil, FpElem.padX]
  norm_num [config0603]

/-- Claim C4: the stroke widths follow the three-tier rule: length ≥ 2.0
gives the thick tier (0.25) for both silkscreen and outline strokes;
1.0 ≤ length < 2.0 gives the thin tier (0.15) for both; length < 1.0 gives
the thin tier (0.15) for the silkscreen stroke and the thinnest tier (0.1)
for the outline stroke. -/
theorem stroke_width_tiers (c : ChipConfig) :
    (c.length ≥ 2 → silk_lw c = line_width ∧ doc_lw c = line_width) ∧
    (1 ≤ c.length ∧ c.length < 2 →
      silk_lw c = line_width_thin ∧ doc_lw c = line_width_thin) ∧
    (c.length < 1 →
      silk_lw c = line_width_thin ∧ doc_lw c = line_width_thinner) ∧
    line_width = 0.25 ∧ line_width_thin = 0.15 ∧ line_width_thinner = 0.1 := by
  refine ⟨?_, ?_, ?_, rfl, rfl, rfl⟩
  · intro h
    rw [silk_lw, if_pos h, doc_lw, if_pos h]
    exact ⟨rfl, rfl⟩
  · rintro ⟨h1, h2⟩
    rw [silk_lw, if_neg (not_le.mpr h2), doc_lw, if_neg (not_le.mpr h2),
      if_pos h1]
    exact ⟨rfl, rfl⟩
  · intro h
    have h2 : ¬ c.length ≥ 2 := by
      intro hc
      exact absurd (lt_of_lt_of_le h (by linarith)) (lt_irrefl _)
    have h1 : ¬ c.length ≥ 1 := not_le.mpr h
    rw [silk_lw, if_neg h2, doc_lw, if_neg h2, if_neg h1]
    exact ⟨rfl, rfl⟩

theorem stroke_width_tiers_witness :
    (silk_lw config1206 = line_width ∧ doc_lw config1206 = line_width) ∧
    (silk_lw config0603 = line_width_thin ∧
      doc_lw config0603 = line_width_thin) ∧
    (silk_lw config01005 = line_width_thin ∧
      doc_lw config01005 = line_width_thinner) :=
  ⟨(stroke_width_tiers config1206).1 (by norm_num [config1206]),
   (stroke_width_tiers config0603).2.1
     ⟨by norm_num [config0603], by norm_num [config0603]⟩,
   (stroke_width_tiers config01005).2.2.1 (by norm_num [config01005])⟩

/-- Claim C5: every footprint variant's documentation outline is a single
polygon with exactly five vertices, all with angle 0.0, tracing the closed
axis-aligned rectangle with x half-extent length/2 and y half-extent
width/2 centered at the origin, the fifth vertex equal to the first; for
the 0603 configuration the half-extents are 0.8 and 0.4. -/
theorem outline_closed_rectangle (r : String → String) (up : List String)
    (c : ChipConfig) (key fp_name : String) :
    (add_footprint_variant r up c key fp_name).outlineElems =
      [FpElem.polygon (r ("polygon-outline-" ++ key)) Layer.top_documentation
        (doc_lw c) false true
        [⟨true, c.length / 2, false, c.width / 2, 0⟩,
         ⟨false, c.length / 2, false, c.width / 2, 0⟩,
         ⟨false, c.length / 2, true, c.width / 2, 0⟩,
         ⟨true, c.length / 2, true, c.width / 2, 0⟩,
         ⟨true, c.length / 2, false, c.width / 2, 0⟩]] ∧
    config0603.length / 2 = 0.8 ∧ config0603.width / 2 = 0.4 := by
  refine ⟨?_, by norm_num [config0603], by norm_num [config0603]⟩
  by_cases h : c.length > 1 <;>
    simp [add_footprint_variant, Footprint.outlineElems, mk_pad,
      FpElem.isOutline, h]

/-- Claim C3 (counterexample to the stated 0603 value): the silkscreen
half-length emitted for the 0603 configuration is
0.8/2 − 0.15/2 − 0.15 = 0.175, not 0.325. -/
theorem silkscreen_0603_extent_not_0325 :
    (add_footprint_variant (fun s => s) ["u1", "u2"] config0603 "reflow"
        "reflow").silkHalfLengths = [0.175, 0.175] ∧
    (add_footprint_variant (fun s => s) ["u1", "u2"] config0603 "reflow"
        "reflow").silkHalfLengths ≠ [0.325, 0.325] := by
  have h1 : config0603.length > 1 := by norm_num [config0603]
  have h2 : ¬ config0603.length ≥ 2 := by norm_num [config0603]
  have he : (add_footprint_variant (fun s => s) ["u1", "u2"] config0603
      "reflow" "reflow").silkHalfLengths = [0.175, 0.175] := by
    simp only [add_footprint_variant, Footprint.silkHalfLengths, mk_pad,
      if_pos h1, silk_lw, if_neg h2, List.map_cons, List.map_nil,
      List.filterMap_append, List.filterMap_cons, List.filterMap_nil,
      FpElem.silkHalfLength, List.headD_cons]
    norm_num [config0603, silkscreen_clearance, line_width_thin]
  refine ⟨he, ?_⟩
  rw [he]
  intro hcontra
  have := List.head_eq_of_cons_eq hcontra
  norm_num at this

/-- Claim C3 (amended): silkscreen segments appear in a footprint variant
if and only if length > 1.0; when they appear there are exactly two (top
and bottom), horizontal lines written as spanning −d to +d with
d = gap/2 − silk_lw/2 − 0.15, at y = ±(width/2 + silk_lw/2); for the 0603
configuration d = 0.175 (not 0.325 as the original claim evaluated it). -/
theorem silkscreen_iff_length_gt_one (r : String → String) (up : List String)
    (c : ChipConfig) (key fp_name : String) :
    (c.length > 1 →
      (add_footprint_variant r up c key fp_name).silkscreenElems =
        [FpElem.polygon (r ("line-silkscreen-top-" ++ key))
           Layer.top_placement (silk_lw c) false false
           [⟨true, c.gap / 2 - silk_lw c / 2 - silkscreen_clearance, false,
             c.width / 2 + silk_lw c / 2, 0⟩,
            ⟨false, c.gap / 2 - silk_lw c / 2 - silkscreen_clearance, false,
             c.width / 2 + silk_lw c / 2, 0⟩],
         FpElem.polygon (r ("line-silkscreen-bot-" ++ key))
           Layer.top_placement (silk_lw c) false false
           [⟨true, c.gap / 2 - silk_lw c / 2 - silkscreen_clearance, true,
             c.width / 2 + silk_lw c / 2, 0⟩,
            ⟨false, c.gap / 2 - silk_lw c / 2 - silkscreen_clearance, true,
             c.width / 2 + silk_lw c / 2, 0⟩]]) ∧
    (¬ c.length > 1 →
      (add_footprint_variant r up c key fp_name).silkscreenElems = []) ∧
    (add_footprint_variant r up config0603 key fp_name).silkHalfLengths =
      [0.175, 0.175] := by
  refine ⟨?_, ?_, ?_⟩
  · intro h
    simp [add_footprint_variant, Footprint.silkscreenElems, mk_pad,
      FpElem.isSilkscreen, h]
  · intro h
    simp [add_footprint_variant, Footprint.silkscreenElems, mk_pad,
      FpElem.isSilkscreen, h]
  · have h1 : config0603.length > 1 := by norm_num [config0603]
    have h2 : ¬ config0603.length ≥ 2 := by norm_num [config0603]
    simp only [add_footprint_variant, Footprint.silkHalfLengths, mk_pad,
      if_pos h1, silk_lw, if_neg h2, List.map_cons, List.map_nil,
      List.filterMap_append, List.filterMap_cons, List.filterMap_nil,
      FpElem.silkHalfLength, List.headD_cons]
    norm_num [config0603, silkscreen_clearance, line_width_thin]

theorem silkscreen_iff_length_gt_one_witness :
    (add_footprint_variant (fun s => s) ["u1", "u2"] config0603 "reflow"
        "reflow").silkscreenElems =
      [FpElem.polygon "line-silkscreen-top-reflow" Layer.top_placement
         (silk_lw config0603) false false
         [⟨true, config0603.gap / 2 - silk_lw config0603 / 2 -
             silkscreen_clearance, false,
           config0603.width / 2 + silk_lw config0603 / 2, 0⟩,
          ⟨false, config0603.gap / 2 - silk_lw config0603 / 2 -
             silkscreen_clearance, false,
           config0603.width / 2 + silk_lw config0603 / 2, 0⟩],
       FpElem.polygon "line-silkscreen-bot-reflow" Layer.top_placement
         (silk_lw config0603) false false
         [⟨true, config0603.gap / 2 - silk_lw config0603 / 2 -
             silkscreen_clearance, true,
           config0603.width / 2 + silk_lw config0603 / 2, 0⟩,
          ⟨false, config0603.gap / 2 - silk_lw config0603 / 2 -
             silkscreen_clearance, true,
           config0603.width / 2 + silk_lw config0603 / 2, 0⟩]] ∧
    (add_footprint_variant (fun s => s) ["u1", "u2"] config01005 "reflow"
        "reflow").silkscreenElems = [] :=
  ⟨(silkscreen_iff_length_gt_one (fun s => s) ["u1", "u2"] config0603
      "reflow" "reflow").1 (by norm_num [config0603]),
   (silkscreen_iff_length_gt_one (fun s => s) ["u1", "u2"] config01005
      "reflow" "reflow").2.1 (by norm_num [config01005])⟩

/-- Claim C6 (counterexample): for a configuration with length > 1.0 whose
computed silkscreen half-length is negative (length 1.2, gap 0.3 gives
0.15 − 0.075 − 0.15 = −0.075), the two silkscreen segments are still
emitted, carrying the negative half-length: nothing is clipped. -/
theorem silkscreen_negative_half_length_emitted :
    (add_footprint_variant (fun s => s) ["u1", "u2"] config_narrow_gap
        "reflow" "reflow").silkHalfLengths = [-0.075, -0.075] ∧
    ((-0.075 : ℚ) < 0) ∧
    (add_footprint_variant (fun s => s) ["u1", "u2"] config_narrow_gap
        "reflow" "reflow").silkscreenElems.length = 2 := by
  have h1 : config_narrow_gap.length > 1 := by norm_num [config_narrow_gap]
  have h2 : ¬ config_narrow_gap.length ≥ 2 := by norm_num [config_narrow_gap]
  refine ⟨?_, by norm_num, ?_⟩
  · simp only [add_footprint_variant, Footprint.silkHalfLengths, mk_pad,
      if_pos h1, silk_lw, if_neg h2, List.map_cons, List.map_nil,
      List.filterMap_append, List.filterMap_cons, List.filterMap_nil,
      FpElem.silkHalfLength, List.headD_cons]
    norm_num [config_narrow_gap, silkscreen_clearance, line_width_thin]
  · simp [add_footprint_variant, Footprint.silkscreenElems, mk_pad,
      FpElem.isSilkscreen, h1]

/-- Claim C6 (amended): for every ChipConfig with length > 1.0, the
silkscreen segments are emitted with the computed half-length
gap/2 − silk_lw/2 − 0.15 unconditionally; a negative half-length is not
clipped and is silently written into the output. -/
theorem silkscreen_half_length_unclipped (r : String → String)
    (up : List String) (c : ChipConfig) (key fp_name : String)
    (h : c.length > 1) :
    (add_footprint_variant r up c key fp_name).silkHalfLengths =
      [c.gap / 2 - silk_lw c / 2 - silkscreen_clearance,
       c.gap / 2 - silk_lw c / 2 - silkscreen_clearance] := by
  simp [add_footprint_variant, Footprint.silkHalfLengths, mk_pad,
    FpElem.silkHalfLength, h]

theorem silkscreen_half_length_unclipped_witness :
    (add_footprint_variant (fun s => s) ["u1", "u2"] config_narrow_gap
        "reflow" "reflow").silkHalfLengths =
      [config_narrow_gap.gap / 2 - silk_lw config_narrow_gap / 2 -
         silkscreen_clearance,
       config_narrow_gap.gap / 2 - silk_lw config_narrow_gap / 2 -
         silkscreen_clearance] :=
  silkscreen_half_length_unclipped (fun s => s) ["u1", "u2"]
    config_narrow_gap "reflow" "reflow" (by norm_num [config_narrow_gap])

theorem rjust_two_eq_zero_pad_two (s : String) :
    rjust s 2 '0' = zero_pad_two s := by
  rw [rjust, zero_pad_two]
  by_cases h : s.length < 2
  · rw [if_neg (by omega), if_pos h]
  · rw [if_pos (by omega), if_neg h]

/-- Claim C7: `size_metric` concatenates length and width each truncated to
tenths of a millimeter and zero-padded to two digits; length 3.2 / width
1.6 yield "3216" and the 0603 configuration yields "1608". -/
theorem size_metric_truncated_padded :
    (∀ c : ChipConfig, 0 ≤ c.length → 0 ≤ c.width →
      c.size_metric = size_metric_spec c) ∧
    config1206.size_metric = "3216" ∧ config0603.size_metric = "1608" := by
  refine ⟨?_, ?_, ?_⟩
  · intro c hl hw
    simp only [ChipConfig.size_metric, size_metric_spec, pyInt]
    rw [if_pos (mul_nonneg hl (by norm_num)),
      if_pos (mul_nonneg hw (by norm_num)),
      rjust_two_eq_zero_pad_two, rjust_two_eq_zero_pad_two]
  · have e1 : pyInt (config1206.length * 10) = 32 := by
      norm_num [pyInt, config1206]
    have e2 : pyInt (config1206.width * 10) = 16 := by
      norm_num [pyInt, config1206]
    simp only [ChipConfig.size_metric, e1, e2]
    decide
  · have e1 : pyInt (config0603.length * 10) = 16 := by
      norm_num [pyInt, config0603]
    have e2 : pyInt (config0603.width * 10) = 8 := by
      norm_num [pyInt, config0603]
    simp only [ChipConfig.size_metric, e1, e2]
    decide

theorem size_metric_truncated_padded_witness :
    config0603.size_metric = size_metric_spec config0603 :=
  size_metric_truncated_padded.1 config0603 (by norm_num [config0603])
    (by norm_num [config0603])

/-- Claim C9: the "reflow" and "hand soldering" footprint variants of any
configuration have identical geometry: their element lists are equal once
the per-variant identifiers (and the variant name, which lives outside the
element list) are abstracted away. -/
theorem variants_identical_geometry (r : String → String) (up : List String)
    (c : ChipConfig) :
    (add_footprint_variant r up c "reflow" "reflow").geometry =
      (add_footprint_variant r up c "handsoldering"
        "hand soldering").geometry := by
  by_cases h : c.length > 1 <;>
    simp [add_footprint_variant, Footprint.geometry, FpElem.eraseId, mk_pad, h]

/-- Claim C10: with the package pad identifiers resolved as
`[_uuid('pad-1'), _uuid('pad-2')]`, the pad emitted at the positive x
offset carries the identifier of role 'pad-2' and the pad at the negative
offset carries the identifier of role 'pad-1', because the loop indexes
`uuid_pads[p - 1]` and Python's `[-1]` wraps to the last element. -/
theorem positive_pad_carries_pad2_uuid (gen : Nat → String) (st : UuidState)
    (full_name : String) (r : String → String) (c : ChipConfig)
    (key fp_name : String) :
    (add_footprint_variant r (generate_pkg_pad_uuids gen st full_name).1 c
        key fp_name).padElems =
      [FpElem.pad (uuid gen (uuid gen st "pkg" full_name "pad-1").2 "pkg"
          full_name "pad-2").1 "top" "rect"
         (c.gap / 2 + c.pad_length / 2) 0 c.pad_length c.pad_width,
       FpElem.pad (uuid gen st "pkg" full_name "pad-1").1 "top" "rect"
         (-(c.gap / 2 + c.pad_length / 2)) 0 c.pad_length c.pad_width] := by
  by_cases h : c.length > 1 <;>
    simp [add_footprint_variant, generate_pkg_pad_uuids, Footprint.padElems,
      mk_pad, FpElem.isPad, pyIdx, h, zero_sub, sub_self, one_mul,
      neg_one_mul, List.getD]
